import Mathlib

/-!
Verification of the agent-swarm demo workflow.

Shallow embedding of `src/simple_agent_framework.py` and the dependency
check of `src/quickstart.py`.  The Python state dict `IterationState`
becomes a structure; the three LangGraph nodes become functions on that
structure (LangGraph merges the partial dict each node returns into the
state with last-value semantics, which `{ s with ... }` models).  HTTP
calls to the dashboard can fail; we model the environment as a
`Network : Nat -> Option HttpError` giving the outcome of the n-th HTTP
post of a run, and run `building_node` in the `Except HttpError` monad so
that an uncaught failure would propagate.  Fixed-duration sleeps and
`print` calls have no effect on the state and are not modelled.
-/

namespace AgentSwarm

/-- A backlog item (`{"id": ..., "title": ..., "description": ...}`). -/
structure BacklogItem where
  id : String
  title : String
  description : String
  deriving Repr, DecidableEq

/-- A derived plan task (`{"id": ..., "title": ..., "assignee": ...}`). -/
structure Task where
  id : String
  title : String
  assignee : String
  deriving Repr, DecidableEq

/-- The plan dict `{"tasks": tasks, "total_tasks": len(tasks)}`.
The initial empty dict `{}` is modelled as `⟨[], 0⟩`. -/
structure Plan where
  tasks : List Task
  total_tasks : Nat
  deriving Repr, DecidableEq

/-- The `IterationState` TypedDict.  `phase` is one of the four literal
labels "planning", "approval", "building", "complete". -/
structure IterationState where
  phase : String
  backlog : List BacklogItem
  plan : Plan
  completed_tasks : List String
  messages : List String
  deriving Repr, DecidableEq

/-- Failure modes of an HTTP call to the dashboard. -/
inductive HttpError
  | connectionError
  | timeout
  | errorResponse
  deriving Repr, DecidableEq

/-- The environment: outcome of the n-th HTTP post issued during a run
(`none` = the call succeeds, `some e` = it raises `e`). -/
def Network : Type := Nat → Option HttpError

/-- A network where the dashboard is reachable: every call succeeds. -/
def netUp : Network := fun _ => none

/-- A network where the dashboard is unreachable: every call raises a
connection error. -/
def netDown : Network := fun _ => some HttpError.connectionError

/-- A raw `session.post(...)`: succeeds or raises per the environment. -/
def post (outcome : Option HttpError) : Except HttpError Unit :=
  match outcome with
  | none => Except.ok ()
  | some e => Except.error e

/-- A `try: ... except: ...` block that discards any exception
(`except: pass` / `except: print(warning)`). -/
def tryIgnore (x : Except HttpError Unit) : Except HttpError Unit :=
  match x with
  | Except.ok _ => Except.ok ()
  | Except.error _ => Except.ok ()

namespace Agent

/-- Embedding of `Agent.setup`: one post to `/api/agent/register` inside
`try: ... except: print("Warning: ...")`.  Session creation has no
state effect and is not modelled. -/
def setup (o : Option HttpError) : Except HttpError Unit :=
  tryIgnore (post o)

/-- Embedding of `Agent.update_dashboard`: two posts (`/api/agent/update` then
`/api/activity/post`) inside `try: ... except: pass`.  The `status` and
`message` payloads do not influence the outcome. -/
def update_dashboard (o1 o2 : Option HttpError)
    (_status _message : String) : Except HttpError Unit :=
  tryIgnore (do post o1; post o2)

end Agent

/-- The three tasks `planning_node` derives from one backlog item. -/
def backendTaskOf (item : BacklogItem) : Task :=
  { id := item.id ++ "-backend"
    title := "Backend: " ++ item.title
    assignee := "backend" }

/-- The frontend task derived from one backlog item. -/
def frontendTaskOf (item : BacklogItem) : Task :=
  { id := item.id ++ "-frontend"
    title := "Frontend: " ++ item.title
    assignee := "frontend" }

/-- The tests task derived from one backlog item (assignee "qa"). -/
def testsTaskOf (item : BacklogItem) : Task :=
  { id := item.id ++ "-tests"
    title := "Tests: " ++ item.title
    assignee := "qa" }

/-- Body of `tasks.extend([...])` in the planning loop: the three tasks
appended for one backlog item. -/
def planTasksOf (item : BacklogItem) : List Task :=
  [backendTaskOf item, frontendTaskOf item, testsTaskOf item]

/-- The full task list built by the `for item in state["backlog"]` loop. -/
def planTasks (backlog : List BacklogItem) : List Task :=
  backlog.flatMap planTasksOf

/-- Embedding of `planning_node`: derive the plan from the backlog, move to phase
"approval", append one log message. -/
def planning_node (s : IterationState) : IterationState :=
  let tasks := planTasks s.backlog
  { s with
    phase := "approval"
    plan := { tasks := tasks, total_tasks := tasks.length }
    messages := s.messages ++
      ["Created plan with " ++ toString tasks.length ++ " tasks"] }

/-- Embedding of `approval_node`: sleep (not modelled), move to phase "building",
append one log message. -/
def approval_node (s : IterationState) : IterationState :=
  { s with
    phase := "building"
    messages := s.messages ++ ["Plan approved by product owner"] }

/-- Inner loop of `building_node` over the tasks of one assignee type:
for each task, a "busy" dashboard update (2 posts), a sleep, appending
the task id to `completed`, and an "idle" dashboard update (2 posts).
`k` is the index of the next HTTP post in the run. -/
def buildLoop (net : Network) (k : Nat) (tasks : List Task)
    (completed : List String) : Except HttpError (List String × Nat) :=
  match tasks with
  | [] => Except.ok (completed, k)
  | t :: ts => do
      Agent.update_dashboard (net k) (net (k + 1))
        "busy" ("Working on: " ++ t.title)
      Agent.update_dashboard (net (k + 2)) (net (k + 3))
        "idle" ("Completed: " ++ t.title)
      buildLoop net (k + 4) ts (completed ++ [t.id])

/-- Embedding of `building_node`: set up the three agents (one registration post
each), then process the plan's tasks grouped by assignee type in the
fixed order backend, frontend, qa, collecting completed task ids; move
to phase "complete" and append one log message. -/
def building_node (net : Network) (s : IterationState) :
    Except HttpError IterationState := do
  Agent.setup (net 0)
  Agent.setup (net 1)
  Agent.setup (net 2)
  let tasks := s.plan.tasks
  let r1 ← buildLoop net 3
    (tasks.filter (fun t => t.assignee == "backend")) []
  let r2 ← buildLoop net r1.2
    (tasks.filter (fun t => t.assignee == "frontend")) r1.1
  let r3 ← buildLoop net r2.2
    (tasks.filter (fun t => t.assignee == "qa")) r2.1
  Except.ok
    { s with
      phase := "complete"
      completed_tasks := r3.1
      messages := s.messages ++
        ["Completed " ++ toString r3.1.length ++ " tasks"] }

/-- The initial state built by `run_iteration`. -/
def initial_state (backlog : List BacklogItem) : IterationState :=
  { phase := "planning"
    backlog := backlog
    plan := { tasks := [], total_tasks := 0 }
    completed_tasks := []
    messages := [] }

/-- Embedding of `run_iteration`: run the compiled linear workflow
planning → approval → building on the initial state. -/
def run_iteration (net : Network) (backlog : List BacklogItem) :
    Except HttpError IterationState :=
  building_node net (approval_node (planning_node (initial_state backlog)))

/-- The sequence of phase labels a run visits: the initial phase and the
phase after each node, in execution order. -/
def phaseTrace (net : Network) (backlog : List BacklogItem) : List String :=
  let s0 := initial_state backlog
  let s1 := planning_node s0
  let s2 := approval_node s1
  match building_node net s2 with
  | Except.ok s3 => [s0.phase, s1.phase, s2.phase, s3.phase]
  | Except.error _ => [s0.phase, s1.phase, s2.phase]

/-- Which of the required packages are importable at startup
(`quickstart.py` lines 13-20). -/
structure Deps where
  langgraph : Bool
  aiohttp : Bool
  dotenv : Bool
  deriving Repr, DecidableEq

/-- Outcome of running `quickstart.py`: either `sys.exit(code)` after
printing a message, or a completed workflow run. -/
inductive QuickstartResult
  | exited (code : Nat) (message : String)
  | ran (result : Except HttpError IterationState)
  deriving Repr

/-- The test backlog hard-coded in `quickstart.py`. -/
def quickstart_backlog : List BacklogItem :=
  [{ id := "TEST-001"
     title := "Hello World API"
     description := "Simple test endpoint" }]

/-- Embedding of the `quickstart.py` top level: the `try: import ... except ImportError`
check prints a message and exits with status 1 if any of langgraph,
aiohttp, dotenv is missing; otherwise `test_setup` runs the workflow on
the test backlog. -/
def quickstart_main (d : Deps) (net : Network) : QuickstartResult :=
  if d.langgraph && d.aiohttp && d.dotenv then
    QuickstartResult.ran (run_iteration net quickstart_backlog)
  else
    QuickstartResult.exited 1
      "Missing required packages! Please run: pip install langgraph aiohttp python-dotenv"

/-- The pure state transformation `building_node` performs: completed
task ids are the plan's task ids grouped by assignee in the order
backend, frontend, qa (derived below; used to state results). -/
def completedOf (tasks : List Task) : List String :=
  (tasks.filter (fun t => t.assignee == "backend")).map Task.id ++
  (tasks.filter (fun t => t.assignee == "frontend")).map Task.id ++
  (tasks.filter (fun t => t.assignee == "qa")).map Task.id

/-- The state `building_node` returns, as a pure function. -/
def building_result (s : IterationState) : IterationState :=
  { s with
    phase := "complete"
    completed_tasks := completedOf s.plan.tasks
    messages := s.messages ++
      ["Completed " ++ toString (completedOf s.plan.tasks).length ++ " tasks"] }

/-! ### Helper lemmas -/

/-- The method `Agent.setup` swallows every failure. -/
theorem setup_ok (o : Option HttpError) : Agent.setup o = Except.ok () := by
  cases o <;> rfl

/-- The method `Agent.update_dashboard` swallows every failure of either post. -/
theorem update_dashboard_ok (o1 o2 : Option HttpError) (a b : String) :
    Agent.update_dashboard o1 o2 a b = Except.ok () := by
  cases o1 <;> cases o2 <;> rfl

/-- Bind on a successful `Except` computation runs the continuation. -/
theorem ok_bind {ε α β : Type} (a : α) (f : α → Except ε β) :
    (Except.ok a : Except ε α) >>= f = f a := rfl

/-- Closed form of the per-assignee build loop: it never fails, appends
the task ids in order, and issues four posts per task. -/
theorem buildLoop_eq (net : Network) (ts : List Task) : ∀ k acc,
    buildLoop net k ts acc =
      Except.ok (acc ++ ts.map Task.id, k + 4 * ts.length) := by
  induction ts with
  | nil => intro k acc; simp [buildLoop]
  | cons t ts ih =>
      intro k acc
      show (do
        Agent.update_dashboard (net k) (net (k + 1))
          "busy" ("Working on: " ++ t.title)
        Agent.update_dashboard (net (k + 2)) (net (k + 3))
          "idle" ("Completed: " ++ t.title)
        buildLoop net (k + 4) ts (acc ++ [t.id])) = _
      rw [update_dashboard_ok, update_dashboard_ok]
      show buildLoop net (k + 4) ts (acc ++ [t.id]) = _
      rw [ih]
      simp [List.append_assoc]
      omega

/-- The node `building_node` never fails and computes `building_result`. -/
theorem building_node_eq (net : Network) (s : IterationState) :
    building_node net s = Except.ok (building_result s) := by
  show (do
    Agent.setup (net 0)
    Agent.setup (net 1)
    Agent.setup (net 2)
    let tasks := s.plan.tasks
    let r1 ← buildLoop net 3
      (tasks.filter (fun t => t.assignee == "backend")) []
    let r2 ← buildLoop net r1.2
      (tasks.filter (fun t => t.assignee == "frontend")) r1.1
    let r3 ← buildLoop net r2.2
      (tasks.filter (fun t => t.assignee == "qa")) r2.1
    Except.ok
      { s with
        phase := "complete"
        completed_tasks := r3.1
        messages := s.messages ++
          ["Completed " ++ toString r3.1.length ++ " tasks"] }) = _
  rw [setup_ok, setup_ok, setup_ok]
  show (do
    let r1 ← buildLoop net 3
      (s.plan.tasks.filter (fun t => t.assignee == "backend")) []
    let r2 ← buildLoop net r1.2
      (s.plan.tasks.filter (fun t => t.assignee == "frontend")) r1.1
    let r3 ← buildLoop net r2.2
      (s.plan.tasks.filter (fun t => t.assignee == "qa")) r2.1
    Except.ok
      { s with
        phase := "complete"
        completed_tasks := r3.1
        messages := s.messages ++
          ["Completed " ++ toString r3.1.length ++ " tasks"] }) = _
  simp only [buildLoop_eq, ok_bind]
  simp [building_result, completedOf, List.append_assoc]

/-- The runner `run_iteration` never fails and its final state is the composition
of the three node transformations. -/
theorem run_iteration_eq (net : Network) (backlog : List BacklogItem) :
    run_iteration net backlog =
      Except.ok
        (building_result (approval_node (planning_node (initial_state backlog)))) := by
  simp [run_iteration, building_node_eq]

/-- Filtering the derived plan for "backend" keeps exactly the backend
task of each item, in backlog order. -/
theorem planTasks_filter_backend (bl : List BacklogItem) :
    (planTasks bl).filter (fun t => t.assignee == "backend") =
      bl.map backendTaskOf := by
  induction bl with
  | nil => rfl
  | cons b bs ih =>
      show ((planTasksOf b ++ planTasks bs).filter fun t =>
        t.assignee == "backend") = _
      rw [List.filter_append, ih]
      rfl

/-- Filtering the derived plan for "frontend" keeps exactly the frontend
task of each item, in backlog order. -/
theorem planTasks_filter_frontend (bl : List BacklogItem) :
    (planTasks bl).filter (fun t => t.assignee == "frontend") =
      bl.map frontendTaskOf := by
  induction bl with
  | nil => rfl
  | cons b bs ih =>
      show ((planTasksOf b ++ planTasks bs).filter fun t =>
        t.assignee == "frontend") = _
      rw [List.filter_append, ih]
      rfl

/-- Filtering the derived plan for "qa" keeps exactly the tests task of
each item, in backlog order. -/
theorem planTasks_filter_qa (bl : List BacklogItem) :
    (planTasks bl).filter (fun t => t.assignee == "qa") =
      bl.map testsTaskOf := by
  induction bl with
  | nil => rfl
  | cons b bs ih =>
      show ((planTasksOf b ++ planTasks bs).filter fun t =>
        t.assignee == "qa") = _
      rw [List.filter_append, ih]
      rfl

/-- The completed list over a derived plan: backend ids, then frontend
ids, then tests ids, each group in backlog order. -/
theorem completedOf_planTasks (bl : List BacklogItem) :
    completedOf (planTasks bl) =
      bl.map (fun b => b.id ++ "-backend") ++
      bl.map (fun b => b.id ++ "-frontend") ++
      bl.map (fun b => b.id ++ "-tests") := by
  unfold completedOf
  rw [planTasks_filter_backend, planTasks_filter_frontend,
    planTasks_filter_qa, List.map_map, List.map_map, List.map_map]
  rfl

/-- Task ids of the derived plan, in plan order (interleaved per item). -/
theorem planTasks_map_id (bl : List BacklogItem) :
    (planTasks bl).map Task.id =
      bl.flatMap (fun b =>
        [b.id ++ "-backend", b.id ++ "-frontend", b.id ++ "-tests"]) := by
  induction bl with
  | nil => rfl
  | cons b bs ih =>
      show (planTasksOf b ++ planTasks bs).map Task.id = _
      rw [List.map_append, ih]
      rfl

/-- The derived plan has three tasks per backlog item. -/
theorem planTasks_length (bl : List BacklogItem) :
    (planTasks bl).length = 3 * bl.length := by
  induction bl with
  | nil => rfl
  | cons b bs ih =>
      show (planTasksOf b ++ planTasks bs).length = _
      rw [List.length_append, ih]
      simp [planTasksOf]
      omega

/-- The assignees of the derived plan are "backend", "frontend", "qa"
repeated once per backlog item, in that order. -/
theorem planTasks_map_assignee (bl : List BacklogItem) :
    (planTasks bl).map Task.assignee =
      (List.replicate bl.length ["backend", "frontend", "qa"]).flatten := by
  induction bl with
  | nil => rfl
  | cons b bs ih =>
      show (planTasksOf b ++ planTasks bs).map Task.assignee = _
      rw [List.map_append, ih]
      rfl

/-- No string ending in "-backend" equals a string ending in
"-frontend": the two suffixes differ at the fourth character from the
end. -/
theorem append_backend_ne_frontend (a b : String) :
    a ++ "-backend" ≠ b ++ "-frontend" := by
  intro h
  have h1 : (a ++ "-backend").data.reverse = (b ++ "-frontend").data.reverse := by
    rw [h]
  rw [String.data_append, String.data_append, List.reverse_append,
    List.reverse_append] at h1
  have e1 : ("-backend" : String).data.reverse =
      ['d', 'n', 'e', 'k', 'c', 'a', 'b', '-'] := rfl
  have e2 : ("-frontend" : String).data.reverse =
      ['d', 'n', 'e', 't', 'n', 'o', 'r', 'f', '-'] := rfl
  rw [e1, e2] at h1
  simp only [List.cons_append, List.cons.injEq] at h1
  exact absurd h1.2.2.2.1 (by decide)

/-- With at least two backlog items, the grouped completion order
differs from the plan order: at index 1 the completed list holds the
second item's backend task while the plan holds the first item's
frontend task. -/
theorem completed_ne_plan_order (bl : List BacklogItem)
    (h : 2 ≤ bl.length) :
    completedOf (planTasks bl) ≠ (planTasks bl).map Task.id := by
  match bl, h with
  | b0 :: b1 :: rest, _ =>
    intro hEq
    rw [completedOf_planTasks, planTasks_map_id] at hEq
    simp only [List.map_cons, List.flatMap_cons, List.cons_append,
      List.cons.injEq] at hEq
    exact append_backend_ne_frontend b1.id b0.id hEq.2.1

/-- Concatenating three maps over a list is a permutation of flat-mapping
the triple of images per element. -/
theorem maps_perm_flatMap {α β : Type} (f g h : α → β) (l : List α) :
    (l.map f ++ l.map g ++ l.map h).Perm
      (l.flatMap fun x => [f x, g x, h x]) := by
  induction l with
  | nil => simp
  | cons a l ih =>
      simp only [List.map_cons, List.flatMap_cons, List.cons_append]
      refine List.Perm.cons (f a) ?_
      have h1 : (l.map f ++ g a :: l.map g ++ h a :: l.map h).Perm
          (g a :: (l.map f ++ l.map g ++ h a :: l.map h)) := by
        simp [List.append_assoc]
      refine h1.trans (List.Perm.cons (g a) ?_)
      have h2 : (l.map f ++ l.map g ++ h a :: l.map h).Perm
          (h a :: (l.map f ++ l.map g ++ l.map h)) :=
        List.perm_middle
      exact h2.trans (List.Perm.cons (h a) ih)

/-! ### Claim theorems -/

/-- C1: for every backlog of N items, the plan produced by
`planning_node` contains exactly 3×N tasks, and per backlog item the
three tasks carry assignees "backend", "frontend", "qa" in that order. -/
theorem C1_plan_has_three_tasks_per_item (s : IterationState) :
    (planning_node s).plan.tasks.length = 3 * s.backlog.length ∧
    (planning_node s).plan.tasks.map Task.assignee =
      (List.replicate s.backlog.length ["backend", "frontend", "qa"]).flatten := by
  constructor
  · exact planTasks_length s.backlog
  · exact planTasks_map_assignee s.backlog

/-- C2: for every backlog and every network behaviour, a full run
succeeds and its completed-task list has the length of the derived plan
and holds exactly the plan tasks' identifiers (as a permutation). -/
theorem C2_completed_are_plan_ids (net : Network)
    (backlog : List BacklogItem) :
    ∃ s : IterationState,
      run_iteration net backlog = Except.ok s ∧
      s.completed_tasks.length = s.plan.tasks.length ∧
      s.completed_tasks.Perm (s.plan.tasks.map Task.id) := by
  refine ⟨_, run_iteration_eq net backlog, ?_, ?_⟩
  · show (completedOf (planTasks backlog)).length = (planTasks backlog).length
    have hperm : (completedOf (planTasks backlog)).Perm
        ((planTasks backlog).map Task.id) := by
      rw [completedOf_planTasks, planTasks_map_id]
      exact maps_perm_flatMap _ _ _ backlog
    rw [hperm.length_eq, List.length_map]
  · show (completedOf (planTasks backlog)).Perm
      ((planTasks backlog).map Task.id)
    rw [completedOf_planTasks, planTasks_map_id]
    exact maps_perm_flatMap _ _ _ backlog

/-- C3: for every backlog (including the empty one) and every network
behaviour, a run visits the phase labels "planning", "approval",
"building", "complete" in exactly this order. -/
theorem C3_phase_order (net : Network) (backlog : List BacklogItem) :
    phaseTrace net backlog =
      ["planning", "approval", "building", "complete"] := by
  simp only [phaseTrace, building_node_eq]
  rfl

/-- C4: on the same backlog, the run with the dashboard reachable and
the run with every HTTP call failing both succeed, end in the same
final phase, and complete the same number of tasks. -/
theorem C4_dashboard_immaterial (backlog : List BacklogItem) :
    ∃ s1 s2 : IterationState,
      run_iteration netUp backlog = Except.ok s1 ∧
      run_iteration netDown backlog = Except.ok s2 ∧
      s1.phase = s2.phase ∧
      s1.completed_tasks.length = s2.completed_tasks.length :=
  ⟨_, _, run_iteration_eq netUp backlog, run_iteration_eq netDown backlog,
    rfl, rfl⟩

/-- C5: `Agent.setup` and `Agent.update_dashboard` catch every HTTP
failure (connection error, timeout, error response) internally and
never propagate an exception. -/
theorem C5_http_errors_never_propagate :
    (∀ o : Option HttpError, Agent.setup o = Except.ok ()) ∧
    (∀ (o1 o2 : Option HttpError) (a b : String),
      Agent.update_dashboard o1 o2 a b = Except.ok ()) :=
  ⟨setup_ok, update_dashboard_ok⟩

/-- C6: if any of langgraph, aiohttp, dotenv is missing at startup, the
quick-start program exits with status 1 and a human-readable message,
without running any workflow stage. -/
theorem C6_missing_dependency_exits_1 (d : Deps) (net : Network)
    (h : d.langgraph = false ∨ d.aiohttp = false ∨ d.dotenv = false) :
    quickstart_main d net =
      QuickstartResult.exited 1
        "Missing required packages! Please run: pip install langgraph aiohttp python-dotenv" := by
  unfold quickstart_main
  rcases h with h | h | h <;> simp [h]

/-- Witness for C6 at a concrete missing dependency. -/
theorem C6_missing_dependency_exits_1_witness :
    quickstart_main ⟨false, true, true⟩ netUp =
      QuickstartResult.exited 1
        "Missing required packages! Please run: pip install langgraph aiohttp python-dotenv" :=
  C6_missing_dependency_exits_1 ⟨false, true, true⟩ netUp (Or.inl rfl)

/-- C7: the plan derived by `planning_node` depends only on the
backlog: states agreeing on the backlog yield equal plans, whatever
their phase, plan, completed tasks or messages. -/
theorem C7_plan_determined_by_backlog (s1 s2 : IterationState)
    (h : s1.backlog = s2.backlog) :
    (planning_node s1).plan = (planning_node s2).plan := by
  simp [planning_node, h]

/-- Witness for C7: two states sharing a backlog but differing in every
other field produce the same plan. -/
theorem C7_plan_determined_by_backlog_witness :
    (planning_node
      { phase := "planning"
        backlog := [⟨"A", "t", "d"⟩]
        plan := { tasks := [], total_tasks := 0 }
        completed_tasks := []
        messages := [] }).plan =
    (planning_node
      { phase := "building"
        backlog := [⟨"A", "t", "d"⟩]
        plan := { tasks := [⟨"x", "y", "z"⟩], total_tasks := 5 }
        completed_tasks := ["q"]
        messages := ["m"] }).plan :=
  C7_plan_determined_by_backlog _ _ rfl

/-- C8: each node appends exactly one message to the incoming log and
preserves the prior entries, so a full run starting from an empty log
ends with exactly 3 messages. -/
theorem C8_messages_append_only :
    (∀ s : IterationState, ∃ m,
      (planning_node s).messages = s.messages ++ [m]) ∧
    (∀ s : IterationState, ∃ m,
      (approval_node s).messages = s.messages ++ [m]) ∧
    (∀ (net : Network) (s : IterationState), ∃ s' m,
      building_node net s = Except.ok s' ∧
      s'.messages = s.messages ++ [m]) ∧
    (∀ (net : Network) (backlog : List BacklogItem), ∃ s',
      run_iteration net backlog = Except.ok s' ∧
      s'.messages.length = 3) :=
  ⟨fun _ => ⟨_, rfl⟩,
   fun _ => ⟨_, rfl⟩,
   fun net s => ⟨_, _, building_node_eq net s, rfl⟩,
   fun net backlog => ⟨_, run_iteration_eq net backlog, rfl⟩⟩

/-- C9: the plan built by `planning_node` has `total_tasks` equal to
the length of its task list, and neither `approval_node` nor
`building_node` modifies the plan. -/
theorem C9_plan_total_invariant :
    (∀ s : IterationState,
      (planning_node s).plan.total_tasks =
        (planning_node s).plan.tasks.length) ∧
    (∀ s : IterationState, (approval_node s).plan = s.plan) ∧
    (∀ (net : Network) (s : IterationState), ∃ s',
      building_node net s = Except.ok s' ∧ s'.plan = s.plan) :=
  ⟨fun _ => rfl,
   fun _ => rfl,
   fun net s => ⟨_, building_node_eq net s, rfl⟩⟩

/-- C10: `building_node` completes tasks grouped by assignee in the
fixed order backend, frontend, qa, keeping plan order inside each group
(`List.filter` preserves order); hence with 2 or more backlog items the
completed order differs from the interleaved plan order. -/
theorem C10_completion_grouped_by_assignee :
    (∀ (net : Network) (s : IterationState), ∃ s',
      building_node net s = Except.ok s' ∧
      s'.completed_tasks =
        (s.plan.tasks.filter (fun t => t.assignee == "backend")).map Task.id ++
        (s.plan.tasks.filter (fun t => t.assignee == "frontend")).map Task.id ++
        (s.plan.tasks.filter (fun t => t.assignee == "qa")).map Task.id) ∧
    (∀ (net : Network) (backlog : List BacklogItem),
      2 ≤ backlog.length →
      ∃ s', run_iteration net backlog = Except.ok s' ∧
        s'.completed_tasks ≠ s'.plan.tasks.map Task.id) := by
  constructor
  · intro net s
    exact ⟨_, building_node_eq net s, rfl⟩
  · intro net backlog h
    refine ⟨_, run_iteration_eq net backlog, ?_⟩
    show completedOf (planTasks backlog) ≠ (planTasks backlog).map Task.id
    exact completed_ne_plan_order backlog h

/-- Witness for C10 on a concrete two-item backlog. -/
theorem C10_completion_grouped_by_assignee_witness :
    ∃ s', run_iteration netUp [⟨"A", "a", ""⟩, ⟨"B", "b", ""⟩] =
        Except.ok s' ∧
      s'.completed_tasks ≠ s'.plan.tasks.map Task.id :=
  C10_completion_grouped_by_assignee.2 netUp
    [⟨"A", "a", ""⟩, ⟨"B", "b", ""⟩] (by decide)

end AgentSwarm
